import Mathlib

/-!
Verification of the scoring, decision and risk-identification engine of the
AI Use Case Risk and Criticality Screening questionnaire
(`src/ai_risk_screening.py`), via a shallow embedding in Lean 4.

Numeric answers are embedded as rationals; `round(x, 2)` of Python is
embedded as rounding half to even at two decimals (`pyround2`).
-/

namespace AIRiskScreening

/-- Rounding half to even on rationals, matching the tie-breaking rule of
the built-in `round` of Python. -/
def round_half_even (x : ℚ) : ℤ :=
  if x - Int.floor x < 1/2 then Int.floor x
  else if 1/2 < x - Int.floor x then Int.floor x + 1
  else if Even (Int.floor x) then Int.floor x else Int.floor x + 1

/-- Embedding of the `round(x, 2)` calls of the source. -/
def pyround2 (x : ℚ) : ℚ :=
  (round_half_even (x * 100) : ℚ) / 100

theorem le_round_half_even (n : ℤ) (x : ℚ) (h : (n : ℚ) ≤ x) :
    n ≤ round_half_even x := by
  unfold round_half_even
  have hf : n ≤ Int.floor x := Int.le_floor.mpr h
  split
  · exact hf
  · split
    · omega
    · split <;> omega

theorem round_half_even_le (n : ℤ) (x : ℚ) (h : x ≤ (n : ℚ)) :
    round_half_even x ≤ n := by
  unfold round_half_even
  have hf : Int.floor x ≤ n := by
    have := Int.floor_le_floor h
    rwa [Int.floor_intCast] at this
  have hfx : (Int.floor x : ℚ) ≤ x := Int.floor_le x
  split
  · exact hf
  · rename_i h1
    push_neg at h1
    have hlt : Int.floor x < n := by
      by_contra hc
      push_neg at hc
      have heq : Int.floor x = n := le_antisymm hf hc
      have hhalf : (1:ℚ)/2 ≤ x - (n : ℚ) := by rw [← heq]; exact h1
      linarith
    split
    · omega
    · split <;> omega

theorem pyround2_bounds (a b : ℤ) (x : ℚ)
    (ha : (a : ℚ) ≤ x) (hb : x ≤ (b : ℚ)) :
    (a : ℚ) ≤ pyround2 x ∧ pyround2 x ≤ (b : ℚ) := by
  unfold pyround2
  have h1 : (a * 100 : ℤ) ≤ round_half_even (x * 100) := by
    apply le_round_half_even
    push_cast
    nlinarith
  have h2 : round_half_even (x * 100) ≤ (b * 100 : ℤ) := by
    apply round_half_even_le
    push_cast
    nlinarith
  constructor
  · rw [le_div_iff₀ (by norm_num : (0:ℚ) < 100)]
    calc (a : ℚ) * 100 = ((a * 100 : ℤ) : ℚ) := by push_cast; ring
      _ ≤ (round_half_even (x * 100) : ℚ) := by exact_mod_cast h1
  · rw [div_le_iff₀ (by norm_num : (0:ℚ) < 100)]
    calc (round_half_even (x * 100) : ℚ) ≤ ((b * 100 : ℤ) : ℚ) := by exact_mod_cast h2
      _ = (b : ℚ) * 100 := by push_cast; ring

/-- Splitting a character list at commas, the semantics of the
`split(",")` method of Python: `[]` maps to one empty piece and every
comma opens a new piece. -/
def split_commas_chars : List Char → List (List Char)
  | [] => [[]]
  | c :: cs =>
    if c = ',' then [] :: split_commas_chars cs
    else
      match split_commas_chars cs with
      | [] => [[c]]
      | p :: ps => (c :: p) :: ps

/-- Embedding of `other_text.split(",")`. -/
def py_split (s : String) : List String :=
  (split_commas_chars s.data).map List.asString

/-- Embedding of the `strip()` method of Python: drop leading and
trailing whitespace. -/
def py_strip (s : String) : String :=
  (((s.data.dropWhile Char.isWhitespace).reverse.dropWhile Char.isWhitespace).reverse).asString

/-- Embedding of `enrich_with_other(selected_list, other_text)`: when the
sentinel value Other is selected it is removed, and if the free-text field
is non-blank its comma-separated pieces are stripped, the blank ones
dropped, and the rest appended after the remaining selections. -/
def enrich_with_other (selected_list : List String) (other_text : String) : List String :=
  if selected_list.contains ("Other") then
    let filtered := selected_list.filter (fun s => s ≠ "Other")
    if other_text ≠ "" ∧ py_strip other_text ≠ "" then
      filtered ++ (((py_split other_text).map py_strip).filter (fun x => x ≠ ""))
    else filtered
  else selected_list

/-- The source-risk mapping of `max_source_risk`. -/
def source_mapping (s : String) : Option ℕ :=
  if s == "Internal" then some 2
  else if s == "External" then some 3
  else if s == "Third-party" then some 4
  else none

/-- Maximum of a list of naturals; `none` models the `ValueError` the
`max` built-in of Python raises on an empty sequence. -/
def list_max : List ℕ → Option ℕ
  | [] => none
  | x :: xs => some (xs.foldl Nat.max x)

/-- Embedding of `max_source_risk(sources)`: 3 when no source is selected,
otherwise the maximum of the mapped risks over the sources present in the
mapping (an empty maximum models the exception the source would raise). -/
def max_source_risk (sources : List String) : Option ℕ :=
  if sources.isEmpty then some 3
  else
    list_max (((sources.filter (fun s => (source_mapping s).isSome)).map
      (fun s => (source_mapping s).getD 3)))

/-- Embedding of `regulatory_base_risk(regs)`. -/
def regulatory_base_risk (regs : List String) : ℕ :=
  if regs.any (fun r => ["GDPR", "HIPAA", "RBI"].contains r) then 4
  else if regs.length > 0 then 3
  else 2

/-- Embedding of `categorize_total_risk(total)`. -/
def categorize_total_risk (total : ℚ) : String :=
  if total ≥ 3.5 then "High"
  else if total ≥ 2.5 then "Medium"
  else "Low"

/-- Embedding of `decision_matrix(risk_level, criticality)`. -/
def decision_matrix (risk_level criticality : String) : String :=
  if risk_level == "Low" then "Approve"
  else if risk_level == "Medium" && criticality == "High" then "Approve with conditions"
  else if risk_level == "Medium" then "Approve"
  else if risk_level == "High" && criticality == "High" then "Escalate for detailed review"
  else if risk_level == "High" then "Reject or redesign"
  else "Review"

/-- Embedding of `performance_metrics_risk(metrics)`. -/
def performance_metrics_risk (metrics : List String) : ℚ :=
  if metrics = [] then 4.5
  else if metrics = ["Accuracy"] then 3.5
  else if metrics.any (fun m => ["Accuracy", "Precision", "Recall", "F1 Score"].contains m) then 2.0
  else 3.0

/-- Rank of a risk category under the order Low < Medium < High, used to
state monotonicity of the categorization. -/
def risk_rank (c : String) : ℕ :=
  if c == "High" then 2 else if c == "Medium" then 1 else 0

/-- The normalized questionnaire answers the scoring engine reads.  Radio
answers are the strings Yes and No; selects are the strings offered by the
form; multi-selects are lists already passed through `enrich_with_other`. -/
structure Answers where
  data_sources : List String
  data_sensitivity : String
  data_bias_checks : String
  data_encryption : String
  model_explainable : String
  bias_fairness : String
  performance_metrics : List String
  model_drift : String
  criticality : String
  dependency : String
  fallback : String
  regs : List String
  consent : String
  auditability : String
  access_controls : String
  cyber_measures : String
  privacy_by_design : String
deriving DecidableEq

/-- The call-site filter applied before `max_source_risk`:
`[s for s in data_sources if s in ["Internal", "External", "Third-party"]]`. -/
def known_sources (a : Answers) : List String :=
  a.data_sources.filter (fun s => ["Internal", "External", "Third-party"].contains s)

/-- Embedding of the `data_risk_components` list; `none` would mean the
source-risk component raised, which never happens at this call site. -/
def data_risk_components (a : Answers) : Option (List ℚ) :=
  (max_source_risk (known_sources a)).map (fun m : ℕ =>
    [if a.data_sensitivity == "Yes" then 5 else 2,
     if a.data_bias_checks == "No" then 4 else 2,
     if a.data_encryption == "No" then 4 else 2,
     (m : ℚ)])

/-- Embedding of `data_risk_score`. -/
def data_risk_score (a : Answers) : Option ℚ :=
  (data_risk_components a).map (fun cs => pyround2 (cs.sum / (cs.length : ℚ)))

/-- Embedding of the `model_risk_components` list. -/
def model_risk_components (a : Answers) : List ℚ :=
  [if a.model_explainable == "No" then 4 else 2,
   if a.bias_fairness == "No" then 4 else 2,
   performance_metrics_risk a.performance_metrics,
   if a.model_drift == "No" then 4 else 2]

/-- Embedding of `model_risk_score`. -/
def model_risk_score (a : Answers) : ℚ :=
  pyround2 ((model_risk_components a).sum / ((model_risk_components a).length : ℚ))

/-- Embedding of `crit_map.get(criticality, 3)`. -/
def crit_map (c : String) : ℕ :=
  if c == "Low" then 2 else if c == "Medium" then 3 else if c == "High" then 4 else 3

/-- Embedding of `dep_map.get(dependency, 3)`. -/
def dep_map (d : String) : ℕ :=
  if d == "Advisory" then 2 else if d == "Fully Automated" then 4 else 3

/-- Embedding of the `operational_risk_components` list. -/
def operational_risk_components (a : Answers) : List ℚ :=
  [(crit_map a.criticality : ℚ),
   (dep_map a.dependency : ℚ),
   if a.fallback == "No" then 4 else 2]

/-- Embedding of `operational_risk_score`. -/
def operational_risk_score (a : Answers) : ℚ :=
  pyround2 ((operational_risk_components a).sum / ((operational_risk_components a).length : ℚ))

/-- Embedding of the `regulatory_risk_components` list. -/
def regulatory_risk_components (a : Answers) : List ℚ :=
  [(regulatory_base_risk a.regs : ℚ),
   if a.consent == "No" then 4 else 2,
   if a.auditability == "No" then 4 else 2]

/-- Embedding of `regulatory_risk_score`. -/
def regulatory_risk_score (a : Answers) : ℚ :=
  pyround2 ((regulatory_risk_components a).sum / ((regulatory_risk_components a).length : ℚ))

/-- Embedding of the `security_risk_components` list. -/
def security_risk_components (a : Answers) : List ℚ :=
  [if a.access_controls == "No" then 4 else 2,
   if a.cyber_measures == "No" then 4 else 2,
   if a.privacy_by_design == "No" then 4 else 2]

/-- Embedding of `security_risk_score`. -/
def security_risk_score (a : Answers) : ℚ :=
  pyround2 ((security_risk_components a).sum / ((security_risk_components a).length : ℚ))

/-- The fixed weight table of the aggregator. -/
def weights : List (String × ℚ) :=
  [("Data", 0.20), ("Model", 0.20), ("Operational", 0.20), ("Regulatory", 0.20), ("Security", 0.20)]

/-- Dictionary lookup `weights[name]`; all five keys are present so the
default is never used. -/
def weight_of (name : String) : ℚ :=
  ((weights.find? (fun p => p.1 == name)).map (fun p => p.2)).getD 0

/-- Embedding of `total_weighted`. -/
def total_weighted (a : Answers) : Option ℚ :=
  (data_risk_score a).map (fun d =>
    pyround2 (d * weight_of ("Data") +
      model_risk_score a * weight_of ("Model") +
      operational_risk_score a * weight_of ("Operational") +
      regulatory_risk_score a * weight_of ("Regulatory") +
      security_risk_score a * weight_of ("Security")))

/-- A risk finding, as built by `add_risk`: a dictionary with the keys
Category, Risk, Severity and Recommended Control. -/
structure Finding where
  category : String
  risk : String
  severity : String
  recommended_control : String
deriving DecidableEq

def finding_sensitive_data : Finding :=
  ⟨"Data", "Sensitive data present (PII/PHI/Financial/Confidential).", "High",
   "DLP, minimization, lawful basis, cross-border review."⟩

def finding_external_data : Finding :=
  ⟨"Data", "External/Third-party data increases contractual/compliance risk.", "Medium",
   "Validate licenses/DPAs, provenance checks."⟩

def finding_bias_checks : Finding :=
  ⟨"Data/Model", "Bias & quality checks missing.", "High",
   "Run bias detection, fairness metrics & mitigation."⟩

def finding_encryption : Finding :=
  ⟨"Security/Privacy", "Encryption/retention controls missing.", "High",
   "Enable at-rest/in-transit encryption, retention policy."⟩

def finding_explainability : Finding :=
  ⟨"Model", "Lack of explainability.", "Medium",
   "XAI techniques, model cards, decision logs."⟩

def finding_fairness : Finding :=
  ⟨"Model", "Fairness checks not implemented.", "High",
   "Define fairness criteria, monitor disparate impact."⟩

def finding_performance_metrics : Finding :=
  ⟨"Model", "Insufficient performance metrics (e.g., only Accuracy).", "Medium",
   "Track Precision/Recall/F1; align to harm."⟩

def finding_drift : Finding :=
  ⟨"Model/Ops", "No drift monitoring.", "Medium",
   "Drift alerts, retraining schedule, shadow eval."⟩

def finding_fully_automated : Finding :=
  ⟨"Operational", "High criticality with fully automated decisions.", "High",
   "Add human-in-the-loop, approvals, rollback."⟩

def finding_no_fallback : Finding :=
  ⟨"Operational", "No fallback/override.", "High",
   "Manual override, contingency plan."⟩

def finding_consent : Finding :=
  ⟨"Compliance", "Consent management missing.", "High",
   "Capture/manage consent, notice/opt-out, DPIA."⟩

def finding_auditability : Finding :=
  ⟨"Compliance", "Limited auditability/traceability.", "Medium",
   "Decision logs, model lineage, reproducibility."⟩

def finding_access_controls : Finding :=
  ⟨"Security", "RBAC missing.", "High",
   "Least privilege, periodic access reviews."⟩

def finding_cyber_measures : Finding :=
  ⟨"Security", "Cybersecurity measures incomplete.", "High",
   "Vuln mgmt, monitoring, incident response."⟩

def finding_privacy_by_design : Finding :=
  ⟨"Privacy", "Privacy-by-design not embedded.", "Medium",
   "Data minimization, purpose limitation, PIA."⟩

/-- Embedding of the sequence of guarded `add_risk` calls that builds
`heuristic_risks`, in source order. -/
def heuristic_risks (a : Answers) : List Finding :=
  (if a.data_sensitivity == "Yes" then [finding_sensitive_data] else []) ++
  (if a.data_sources.contains ("External") || a.data_sources.contains ("Third-party")
    then [finding_external_data] else []) ++
  (if a.data_bias_checks == "No" then [finding_bias_checks] else []) ++
  (if a.data_encryption == "No" then [finding_encryption] else []) ++
  (if a.model_explainable == "No" then [finding_explainability] else []) ++
  (if a.bias_fairness == "No" then [finding_fairness] else []) ++
  (if performance_metrics_risk a.performance_metrics ≥ 3.0
    then [finding_performance_metrics] else []) ++
  (if a.model_drift == "No" then [finding_drift] else []) ++
  (if a.dependency == "Fully Automated" && a.criticality == "High"
    then [finding_fully_automated] else []) ++
  (if a.fallback == "No" then [finding_no_fallback] else []) ++
  (if a.consent == "No" then [finding_consent] else []) ++
  (if a.auditability == "No" then [finding_auditability] else []) ++
  (if a.access_controls == "No" then [finding_access_controls] else []) ++
  (if a.cyber_measures == "No" then [finding_cyber_measures] else []) ++
  (if a.privacy_by_design == "No" then [finding_privacy_by_design] else [])

/-- The heuristic rule table seen as declarative data: ordered
(predicate, finding) pairs, one per governance concern. -/
def heuristic_rule_table : List ((Answers → Bool) × Finding) :=
  [(fun a => a.data_sensitivity == "Yes", finding_sensitive_data),
   (fun a => a.data_sources.contains ("External") || a.data_sources.contains ("Third-party"),
    finding_external_data),
   (fun a => a.data_bias_checks == "No", finding_bias_checks),
   (fun a => a.data_encryption == "No", finding_encryption),
   (fun a => a.model_explainable == "No", finding_explainability),
   (fun a => a.bias_fairness == "No", finding_fairness),
   (fun a => decide (performance_metrics_risk a.performance_metrics ≥ 3.0),
    finding_performance_metrics),
   (fun a => a.model_drift == "No", finding_drift),
   (fun a => a.dependency == "Fully Automated" && a.criticality == "High",
    finding_fully_automated),
   (fun a => a.fallback == "No", finding_no_fallback),
   (fun a => a.consent == "No", finding_consent),
   (fun a => a.auditability == "No", finding_auditability),
   (fun a => a.access_controls == "No", finding_access_controls),
   (fun a => a.cyber_measures == "No", finding_cyber_measures),
   (fun a => a.privacy_by_design == "No", finding_privacy_by_design)]

/-- The findings produced by evaluating the rule table uniformly: every
rule whose predicate holds fires, in table order. -/
def table_findings (a : Answers) : List Finding :=
  (heuristic_rule_table.filter (fun r => r.1 a)).map (fun r => r.2)

/-- JSON values, the universe of what `json.loads` can produce. -/
inductive JValue where
  | null
  | bool (b : Bool)
  | num (q : ℚ)
  | str (s : String)
  | arr (items : List JValue)
  | obj (fields : List (String × JValue))

/-- Dictionary lookup on a JSON object. -/
def jlookup (fields : List (String × JValue)) (key : String) : Option JValue :=
  (fields.find? (fun p => p.1 == key)).map (fun p => p.2)

/-- Truthiness of a JSON value under the rules of Python, as tested by
`if ai_risks:`. -/
def jtruthy : JValue → Bool
  | .null => false
  | .bool b => b
  | .num q => !(q == 0)
  | .str s => !(s == "")
  | .arr items => !items.isEmpty
  | .obj fields => !fields.isEmpty

/-- Embedding of `parsed.get("risks", [])`: the risks value of a parsed
object, or the empty list when the key is absent; on a non-object the
attribute access raises and the surrounding handler returns the empty
list as well. -/
def jget_risks : JValue → JValue
  | .obj fields => (jlookup fields ("risks")).getD (.arr [])
  | _ => .arr []

/-- Outcome of the one bounded attempt at the external text-generation
capability, as observed at the port boundary inside `generate_ai_risks`:
no secret configured, a transport or HTTP error, a `json.loads` failure,
or a successfully parsed JSON value. -/
inductive AIResponse where
  | unconfigured
  | transport_error (msg : String)
  | parse_error (msg : String)
  | parsed (v : JValue)

/-- Embedding of `generate_ai_risks`: every failure path is caught and
yields the empty list; a parsed response yields its risks value.  The
function is total: no engine-level error reaches the caller. -/
def generate_ai_risks : AIResponse → JValue
  | .parsed v => jget_risks v
  | _ => .arr []

/-- The failure cases of the AI-assisted strategy: unconfigured secrets,
transport errors, parse failures, and parsed responses whose risks value
is empty (falsy). -/
def ai_failed : AIResponse → Bool
  | .parsed v => !jtruthy (jget_risks v)
  | _ => true

/-- The dictionary `add_risk` appends, as a JSON object. -/
def Finding.toJson (f : Finding) : JValue :=
  .obj [("Category", .str f.category), ("Risk", .str f.risk),
        ("Severity", .str f.severity), ("Recommended Control", .str f.recommended_control)]

/-- Embedding of `final_risks = ai_risks if ai_risks else heuristic_risks`. -/
def final_risks (ai_risks : JValue) (heuristic : List Finding) : JValue :=
  if jtruthy ai_risks then ai_risks else .arr (heuristic.map Finding.toJson)

/-- Modelled from the spec: the Finding schema of section 4.5 and 6 that
an AI response item must conform to (keys Category, Risk, Severity and
Recommended Control, with the enumerated value sets); the source performs
no such validation, so this definition exists only to compare the spec
against the code. -/
def finding_schema_ok (v : JValue) : Bool :=
  match v with
  | .obj fields =>
    (match jlookup fields ("Category") with
     | some (.str c) => ["Data", "Model", "Operational", "Compliance", "Security", "Privacy"].contains c
     | _ => false) &&
    (match jlookup fields ("Risk") with
     | some (.str _) => true
     | _ => false) &&
    (match jlookup fields ("Severity") with
     | some (.str s) => ["Low", "Medium", "High"].contains s
     | _ => false) &&
    (match jlookup fields ("Recommended Control") with
     | some (.str _) => true
     | _ => false)
  | _ => false

/-- Modelled from the spec: a conforming response is a JSON array whose
items all satisfy the Finding schema. -/
def response_schema_ok (v : JValue) : Bool :=
  match v with
  | .arr items => items.all finding_schema_ok
  | _ => false

/-- Claim C2: the decision matrix is total over all nine
(risk category, criticality) pairs and returns exactly the specified
mapping; the defensive default Review is returned for none of the nine
pairs. -/
theorem claim_C2_decision_matrix_total :
    decision_matrix ("Low") ("Low") = "Approve" ∧
    decision_matrix ("Low") ("Medium") = "Approve" ∧
    decision_matrix ("Low") ("High") = "Approve" ∧
    decision_matrix ("Medium") ("Low") = "Approve" ∧
    decision_matrix ("Medium") ("Medium") = "Approve" ∧
    decision_matrix ("Medium") ("High") = "Approve with conditions" ∧
    decision_matrix ("High") ("High") = "Escalate for detailed review" ∧
    decision_matrix ("High") ("Low") = "Reject or redesign" ∧
    decision_matrix ("High") ("Medium") = "Reject or redesign" ∧
    (["Low", "Medium", "High"].all (fun r =>
      ["Low", "Medium", "High"].all (fun c => !(decision_matrix r c == "Review")))) = true := by
  decide

/-- Claim C3: risk categorization maps totals at least 3.5 to High,
totals in [2.5, 3.5) to Medium and everything below to Low, and is
monotonic in the total under the order Low < Medium < High. -/
theorem claim_C3_categorize_monotone :
    (∀ t : ℚ,
      (3.5 ≤ t → categorize_total_risk t = "High") ∧
      (2.5 ≤ t ∧ t < 3.5 → categorize_total_risk t = "Medium") ∧
      (t < 2.5 → categorize_total_risk t = "Low")) ∧
    (∀ t1 t2 : ℚ, t1 ≤ t2 →
      risk_rank (categorize_total_risk t1) ≤ risk_rank (categorize_total_risk t2)) := by
  constructor
  · intro t
    refine ⟨fun h => ?_, fun h => ?_, fun h => ?_⟩ <;>
      unfold categorize_total_risk <;> split_ifs <;>
      first
        | rfl
        | (exfalso; rcases h with ⟨h1, h2⟩ <;> linarith)
        | (exfalso; linarith)
  · intro t1 t2 h
    unfold categorize_total_risk risk_rank
    split_ifs <;> simp_all <;> linarith

/-- Concrete instantiation of claim C3 at totals 2 and 3. -/
theorem witness_C3_categorize_monotone :
    categorize_total_risk 4 = "High" ∧
    risk_rank (categorize_total_risk 2) ≤ risk_rank (categorize_total_risk 3) :=
  ⟨(claim_C3_categorize_monotone.1 4).1 (by norm_num),
   claim_C3_categorize_monotone.2 2 3 (by norm_num)⟩

/-- Claim C4: `performance_metrics_risk` returns 4.5 on an empty
selection, 3.5 on exactly the single metric Accuracy, 2.0 on any other
selection containing a standard metric, and 3.0 otherwise, with the four
quoted input-output pairs. -/
theorem claim_C4_performance_metrics :
    (∀ metrics : List String,
      (metrics = [] → performance_metrics_risk metrics = 4.5) ∧
      (metrics = ["Accuracy"] → performance_metrics_risk metrics = 3.5) ∧
      (metrics ≠ [] → metrics ≠ ["Accuracy"] →
        (∃ m ∈ metrics, m ∈ ["Accuracy", "Precision", "Recall", "F1 Score"]) →
        performance_metrics_risk metrics = 2.0) ∧
      (metrics ≠ [] → (∀ m ∈ metrics, m ∉ ["Accuracy", "Precision", "Recall", "F1 Score"]) →
        performance_metrics_risk metrics = 3.0)) ∧
    performance_metrics_risk [] = 4.5 ∧
    performance_metrics_risk (["Accuracy"]) = 3.5 ∧
    performance_metrics_risk (["Accuracy", "Recall"]) = 2.0 ∧
    performance_metrics_risk (["CustomMetric"]) = 3.0 := by
  refine ⟨fun metrics => ⟨fun h => by simp [performance_metrics_risk, h], fun h => by
    simp [performance_metrics_risk, h], fun h1 h2 h3 => ?_, fun h1 h2 => ?_⟩,
    by simp [performance_metrics_risk], by simp [performance_metrics_risk],
    by simp [performance_metrics_risk], by simp [performance_metrics_risk]⟩
  · have hc : metrics.any
        (fun m => ["Accuracy", "Precision", "Recall", "F1 Score"].contains m) = true := by
      rcases h3 with ⟨m, hm, hstd⟩
      simp only [List.any_eq_true]
      exact ⟨m, hm, by simpa using hstd⟩
    unfold performance_metrics_risk
    rw [if_neg h1, if_neg h2, if_pos hc]
  · have h4 : metrics ≠ ["Accuracy"] := by
      rintro rfl
      exact (h2 ("Accuracy") (by simp)) (by simp)
    have hc : metrics.any
        (fun m => ["Accuracy", "Precision", "Recall", "F1 Score"].contains m) = false := by
      rw [List.any_eq_false]
      intro m hm
      simpa using h2 m hm
    unfold performance_metrics_risk
    rw [if_neg h1, if_neg h4, if_neg (by rw [hc]; simp)]

/-- Concrete instantiation of claim C4 on a mixed standard selection. -/
theorem witness_C4_performance_metrics :
    performance_metrics_risk (["Recall", "CustomMetric"]) = 2.0 :=
  (claim_C4_performance_metrics.1 (["Recall", "CustomMetric"])).2.2.1
    (by decide) (by decide) ⟨"Recall", by decide, by decide⟩

/-- The claim fails as universally stated: with no Other sentinel in the
selection and a non-empty other-text, nothing is appended. -/
theorem counterexample_C7_other_text_needs_sentinel :
    enrich_with_other (["Internal"]) ("Partners, Vendor X") = ["Internal"] ∧
    enrich_with_other (["Internal"]) ("Partners, Vendor X") ≠
      ["Internal", "Partners", "Vendor X"] := by
  decide

/-- Claim C7 as amended: the split-strip-append of the other-text happens
only when the sentinel Other is present in the selection (and the
other-text is non-blank); with Other present and a blank other-text only
the removal happens; without Other the selection is returned unchanged;
the quoted example holds. -/
theorem claim_C7_amended_resolve_other :
    (∀ (selected_list : List String) (other_text : String),
      "Other" ∈ selected_list → py_strip other_text ≠ "" →
      enrich_with_other selected_list other_text =
        selected_list.filter (fun s => s ≠ "Other") ++
          (((py_split other_text).map py_strip).filter (fun x => x ≠ ""))) ∧
    (∀ (selected_list : List String) (other_text : String),
      "Other" ∈ selected_list → py_strip other_text = "" →
      enrich_with_other selected_list other_text =
        selected_list.filter (fun s => s ≠ "Other")) ∧
    (∀ (selected_list : List String) (other_text : String),
      "Other" ∉ selected_list →
      enrich_with_other selected_list other_text = selected_list) ∧
    enrich_with_other (["Internal", "Other"]) ("Partners, Vendor X") =
      ["Internal", "Partners", "Vendor X"] := by
  refine ⟨fun sel other hmem hne => ?_, fun sel other hmem hblank => ?_,
    fun sel other hmem => ?_, by decide⟩
  · have hoe : other ≠ "" := by
      intro h
      apply hne
      rw [h]
      rfl
    simp [enrich_with_other, hmem, hoe, hne]
  · simp [enrich_with_other, hmem, hblank]
  · simp [enrich_with_other, hmem]

/-- Concrete instantiation of claim C7 as amended. -/
theorem witness_C7_amended_resolve_other :
    enrich_with_other (["Cloud", "Other"]) (" Edge , ") = ["Cloud", "Edge"] := by
  have h := claim_C7_amended_resolve_other.1 (["Cloud", "Other"]) (" Edge , ")
    (by decide) (by decide)
  rw [h]
  decide

/-- Claim C10: when the sentinel Other is absent from the selection, the
other-text is ignored entirely and the selection is returned unchanged. -/
theorem claim_C10_no_sentinel_unchanged :
    ∀ (selected_list : List String) (other_text : String),
      "Other" ∉ selected_list →
      enrich_with_other selected_list other_text = selected_list := by
  intro sel other hmem
  simp [enrich_with_other, hmem]

/-- Concrete instantiation of claim C10 with a non-empty other-text. -/
theorem witness_C10_no_sentinel_unchanged :
    enrich_with_other (["Internal", "External"]) ("Vendor X") = ["Internal", "External"] :=
  claim_C10_no_sentinel_unchanged (["Internal", "External"]) ("Vendor X") (by decide)

theorem ite_append_distrib {α : Type} (c : Prop) [Decidable c] (x y l : List α) :
    (if c then x else y) ++ l = if c then x ++ l else y ++ l := by
  split <;> rfl

/-- Scenario C of the spec: High criticality, fully automated dependency,
no fallback, everything else favorable. -/
def scenario_c_answers : Answers :=
  { data_sources := ["Internal"],
    data_sensitivity := "No",
    data_bias_checks := "Yes",
    data_encryption := "Yes",
    model_explainable := "Yes",
    bias_fairness := "Yes",
    performance_metrics := ["Accuracy", "Precision", "Recall", "F1 Score"],
    model_drift := "Yes",
    criticality := "High",
    dependency := "Fully Automated",
    fallback := "No",
    regs := [],
    consent := "Yes",
    auditability := "Yes",
    access_controls := "Yes",
    cyber_measures := "Yes",
    privacy_by_design := "Yes" }

/-- Claim C8: the heuristic strategy produces exactly the findings of the
rules of the fixed table whose predicates hold, every matching rule fires,
the findings keep table order; and under High criticality, Fully Automated
dependency and no fallback both the fully-automated and the no-fallback
entries appear. -/
theorem claim_C8_heuristic_rules_fire :
    (∀ a : Answers, heuristic_risks a = table_findings a) ∧
    (∀ a : Answers, a.criticality = "High" → a.dependency = "Fully Automated" →
      a.fallback = "No" →
      finding_fully_automated ∈ heuristic_risks a ∧
      finding_no_fallback ∈ heuristic_risks a) := by
  constructor
  · intro a
    unfold heuristic_risks table_findings heuristic_rule_table
    simp only [List.filter_cons, List.filter_nil, decide_eq_true_eq, List.map_nil,
      apply_ite (List.map (fun r : (Answers → Bool) × Finding => r.2)), List.map_cons,
      List.append_assoc, ite_append_distrib, List.cons_append, List.nil_append,
      List.append_nil]
  · intro a h1 h2 h3
    constructor <;> simp [heuristic_risks, h1, h2, h3]

/-- Concrete instantiation of claim C8 on the Scenario C answers. -/
theorem witness_C8_heuristic_rules_fire :
    heuristic_risks scenario_c_answers = table_findings scenario_c_answers ∧
    finding_fully_automated ∈ heuristic_risks scenario_c_answers ∧
    finding_no_fallback ∈ heuristic_risks scenario_c_answers :=
  ⟨claim_C8_heuristic_rules_fire.1 scenario_c_answers,
   claim_C8_heuristic_rules_fire.2 scenario_c_answers rfl rfl rfl⟩

/-- Claim C5: whenever the AI-assisted strategy fails (unconfigured
secrets, transport error, parse failure, or empty result), the findings
delivered are exactly the heuristic findings for the same answers, in
order; the embedded operation is total, so no engine-level error reaches
the caller. -/
theorem claim_C5_fallback_is_heuristic :
    ∀ (a : Answers) (r : AIResponse), ai_failed r = true →
      final_risks (generate_ai_risks r) (heuristic_risks a) =
        JValue.arr ((heuristic_risks a).map Finding.toJson) := by
  intro a r h
  cases r with
  | parsed v =>
    simp only [ai_failed, Bool.not_eq_true'] at h
    simp [final_risks, generate_ai_risks, h]
  | unconfigured => simp [final_risks, generate_ai_risks, jtruthy]
  | transport_error msg => simp [final_risks, generate_ai_risks, jtruthy]
  | parse_error msg => simp [final_risks, generate_ai_risks, jtruthy]

/-- Concrete instantiation of claim C5 on a transport failure. -/
theorem witness_C5_fallback_is_heuristic :
    final_risks (generate_ai_risks (AIResponse.transport_error ("timeout")))
        (heuristic_risks scenario_c_answers) =
      JValue.arr ((heuristic_risks scenario_c_answers).map Finding.toJson) :=
  claim_C5_fallback_is_heuristic scenario_c_answers (AIResponse.transport_error ("timeout")) rfl

/-- A syntactically valid but schema-violating non-empty risks array. -/
def bad_ai_value : JValue :=
  JValue.arr [JValue.obj [("Foo", JValue.str ("bar"))]]

/-- A parsed AI response carrying `bad_ai_value` under the risks key. -/
def bad_ai_response : AIResponse :=
  AIResponse.parsed (JValue.obj [("risks", bad_ai_value)])

/-- The claim fails on the code: a non-empty risks array that violates
the Finding schema is accepted as the delivered findings, because the
source never validates the parsed JSON against the schema. -/
theorem counterexample_C6_schema_not_validated :
    response_schema_ok bad_ai_value = false ∧
    jtruthy bad_ai_value = true ∧
    generate_ai_risks bad_ai_response = bad_ai_value ∧
    final_risks (generate_ai_risks bad_ai_response) (heuristic_risks scenario_c_answers) =
      bad_ai_value :=
  ⟨rfl, rfl, rfl, rfl⟩

/-- Claim C6 as amended: transport errors, unconfigured secrets, parse
failures and empty results are treated as strategy failure with heuristic
fallback, but any truthy parsed risks value is delivered as-is, with no
schema validation. -/
theorem claim_C6_amended_accept_any_truthy :
    ∀ (r : AIResponse) (heuristic : List Finding),
      (ai_failed r = true →
        final_risks (generate_ai_risks r) heuristic =
          JValue.arr (heuristic.map Finding.toJson)) ∧
      (ai_failed r = false →
        final_risks (generate_ai_risks r) heuristic = generate_ai_risks r) := by
  intro r heuristic
  constructor
  · intro h
    cases r with
    | parsed v =>
      simp only [ai_failed, Bool.not_eq_true'] at h
      simp [final_risks, generate_ai_risks, h]
    | unconfigured => simp [final_risks, generate_ai_risks, jtruthy]
    | transport_error msg => simp [final_risks, generate_ai_risks, jtruthy]
    | parse_error msg => simp [final_risks, generate_ai_risks, jtruthy]
  · intro h
    cases r with
    | parsed v =>
      simp only [ai_failed, Bool.not_eq_false'] at h
      simp [final_risks, generate_ai_risks, h]
    | unconfigured => simp [ai_failed] at h
    | transport_error msg => simp [ai_failed] at h
    | parse_error msg => simp [ai_failed] at h

/-- Concrete instantiation of claim C6 as amended: the schema-violating
truthy response is delivered unchanged. -/
theorem witness_C6_amended_accept_any_truthy :
    final_risks (generate_ai_risks bad_ai_response) [] = generate_ai_risks bad_ai_response :=
  (claim_C6_amended_accept_any_truthy bad_ai_response []).2 rfl

theorem mem_known_sources_mapped (a : Answers) :
    ∀ s ∈ known_sources a, (source_mapping s).isSome = true := by
  intro s hs
  rw [known_sources, List.mem_filter] at hs
  obtain ⟨-, hc⟩ := hs
  simp at hc
  rcases hc with rfl | rfl | rfl <;> rfl

theorem max_source_risk_known_isSome (a : Answers) :
    (max_source_risk (known_sources a)).isSome = true := by
  unfold max_source_risk
  split
  · rfl
  · rename_i hne
    cases hk : known_sources a with
    | nil => rw [hk] at hne; simp at hne
    | cons s rest =>
      have hs : (source_mapping s).isSome = true :=
        mem_known_sources_mapped a s (by rw [hk]; exact List.mem_cons_self s rest)
      rw [List.filter_cons, if_pos hs, List.map_cons]
      rfl

/-- Missing answers as the form starts: nothing selected, all strings
empty. -/
def blank_answers : Answers :=
  { data_sources := [],
    data_sensitivity := "",
    data_bias_checks := "",
    data_encryption := "",
    model_explainable := "",
    bias_fairness := "",
    performance_metrics := [],
    model_drift := "",
    criticality := "",
    dependency := "",
    fallback := "",
    regs := [],
    consent := "",
    auditability := "",
    access_controls := "",
    cyber_measures := "",
    privacy_by_design := "" }

/-- Claim C9: evaluating the scorers never raises: the Data scorer and
the total are defined for every answer set, the remaining scorers being
total functions; and with no data source selected the source-risk
component is the neutral default 3. -/
theorem claim_C9_scorers_never_raise :
    ∀ a : Answers,
      (data_risk_score a).isSome = true ∧
      (total_weighted a).isSome = true ∧
      (a.data_sources = [] → max_source_risk (known_sources a) = some 3) := by
  intro a
  obtain ⟨m, hm⟩ : ∃ m, max_source_risk (known_sources a) = some m :=
    Option.isSome_iff_exists.mp (max_source_risk_known_isSome a)
  refine ⟨?_, ?_, ?_⟩
  · rw [data_risk_score, data_risk_components, hm]
    rfl
  · rw [total_weighted, data_risk_score, data_risk_components, hm]
    rfl
  · intro h
    rw [known_sources, h]
    rfl

/-- Concrete instantiation of claim C9 on the blank answer set. -/
theorem witness_C9_scorers_never_raise :
    (data_risk_score blank_answers).isSome = true ∧
    max_source_risk (known_sources blank_answers) = some 3 :=
  ⟨(claim_C9_scorers_never_raise blank_answers).1,
   (claim_C9_scorers_never_raise blank_answers).2.2 rfl⟩

theorem score_round_bounds (x : ℚ) (h1 : 1 ≤ x) (h2 : x ≤ 5) :
    1 ≤ pyround2 x ∧ pyround2 x ≤ 5 := by
  have h := pyround2_bounds 1 5 x (by exact_mod_cast h1) (by exact_mod_cast h2)
  exact ⟨by exact_mod_cast h.1, by exact_mod_cast h.2⟩

theorem ite_52_bounds (c : Bool) :
    (2:ℚ) ≤ (if c then 5 else 2) ∧ (if c then (5:ℚ) else 2) ≤ 5 := by
  cases c <;> norm_num

theorem ite_42_bounds (c : Bool) :
    (2:ℚ) ≤ (if c then 4 else 2) ∧ (if c then (4:ℚ) else 2) ≤ 5 := by
  cases c <;> norm_num

theorem pm_risk_bounds (metrics : List String) :
    (2:ℚ) ≤ performance_metrics_risk metrics ∧ performance_metrics_risk metrics ≤ 5 := by
  unfold performance_metrics_risk
  split_ifs <;> norm_num

theorem crit_map_bounds (c : String) : 2 ≤ crit_map c ∧ crit_map c ≤ 4 := by
  unfold crit_map
  split_ifs <;> omega

theorem dep_map_bounds (d : String) : 2 ≤ dep_map d ∧ dep_map d ≤ 4 := by
  unfold dep_map
  split_ifs <;> omega

theorem regulatory_base_risk_bounds (regs : List String) :
    2 ≤ regulatory_base_risk regs ∧ regulatory_base_risk regs ≤ 4 := by
  unfold regulatory_base_risk
  split_ifs <;> omega

theorem getD_source_mapping_bounds (s : String) :
    2 ≤ (source_mapping s).getD 3 ∧ (source_mapping s).getD 3 ≤ 4 := by
  unfold source_mapping
  split_ifs <;> simp

theorem le_foldl_max (lo : ℕ) (xs : List ℕ) :
    ∀ x, lo ≤ x → lo ≤ xs.foldl Nat.max x := by
  induction xs with
  | nil => intro x hx; simpa using hx
  | cons y ys ih =>
    intro x hx
    rw [List.foldl_cons]
    exact ih (Nat.max x y) (le_trans hx (Nat.le_max_left x y))

theorem foldl_max_le (hi : ℕ) (xs : List ℕ) :
    ∀ x, x ≤ hi → (∀ v ∈ xs, v ≤ hi) → xs.foldl Nat.max x ≤ hi := by
  induction xs with
  | nil => intro x hx _; simpa using hx
  | cons y ys ih =>
    intro x hx hall
    rw [List.foldl_cons]
    exact ih (Nat.max x y) (Nat.max_le.mpr ⟨hx, hall y (List.mem_cons_self y ys)⟩)
      (fun v hv => hall v (List.mem_cons_of_mem y hv))

theorem list_max_bounds (lo hi : ℕ) (xs : List ℕ) (m : ℕ)
    (hall : ∀ v ∈ xs, lo ≤ v ∧ v ≤ hi) (hm : list_max xs = some m) :
    lo ≤ m ∧ m ≤ hi := by
  cases xs with
  | nil => simp [list_max] at hm
  | cons x rest =>
    simp only [list_max, Option.some.injEq] at hm
    constructor
    · exact hm ▸ le_foldl_max lo rest x (hall x (List.mem_cons_self x rest)).1
    · exact hm ▸ foldl_max_le hi rest x (hall x (List.mem_cons_self x rest)).2
        (fun v hv => (hall v (List.mem_cons_of_mem x hv)).2)

theorem max_source_risk_known_bounds (a : Answers) (m : ℕ)
    (hm : max_source_risk (known_sources a) = some m) : 2 ≤ m ∧ m ≤ 4 := by
  rw [max_source_risk] at hm
  split at hm
  · simp only [Option.some.injEq] at hm
    omega
  · refine list_max_bounds 2 4 _ m ?_ hm
    intro v hv
    simp only [List.mem_map] at hv
    obtain ⟨s, -, rfl⟩ := hv
    exact getD_source_mapping_bounds s

theorem mean4_round_bounds (c1 c2 c3 c4 : ℚ)
    (h1 : 2 ≤ c1 ∧ c1 ≤ 5) (h2 : 2 ≤ c2 ∧ c2 ≤ 5)
    (h3 : 2 ≤ c3 ∧ c3 ≤ 5) (h4 : 2 ≤ c4 ∧ c4 ≤ 5) :
    1 ≤ pyround2 (([c1, c2, c3, c4] : List ℚ).sum / (([c1, c2, c3, c4] : List ℚ).length : ℚ)) ∧
    pyround2 (([c1, c2, c3, c4] : List ℚ).sum / (([c1, c2, c3, c4] : List ℚ).length : ℚ)) ≤ 5 := by
  have hs : ([c1, c2, c3, c4] : List ℚ).sum = c1 + c2 + c3 + c4 := by
    simp [List.sum_cons]
    ring
  have hl : ((([c1, c2, c3, c4] : List ℚ).length : ℕ) : ℚ) = 4 := by simp
  rw [hs, hl]
  refine score_round_bounds _ ?_ ?_
  · rw [le_div_iff₀ (by norm_num : (0:ℚ) < 4)]
    linarith [h1.1, h2.1, h3.1, h4.1]
  · rw [div_le_iff₀ (by norm_num : (0:ℚ) < 4)]
    linarith [h1.2, h2.2, h3.2, h4.2]

theorem mean3_round_bounds (c1 c2 c3 : ℚ)
    (h1 : 2 ≤ c1 ∧ c1 ≤ 5) (h2 : 2 ≤ c2 ∧ c2 ≤ 5) (h3 : 2 ≤ c3 ∧ c3 ≤ 5) :
    1 ≤ pyround2 (([c1, c2, c3] : List ℚ).sum / (([c1, c2, c3] : List ℚ).length : ℚ)) ∧
    pyround2 (([c1, c2, c3] : List ℚ).sum / (([c1, c2, c3] : List ℚ).length : ℚ)) ≤ 5 := by
  have hs : ([c1, c2, c3] : List ℚ).sum = c1 + c2 + c3 := by
    simp [List.sum_cons]
    ring
  have hl : ((([c1, c2, c3] : List ℚ).length : ℕ) : ℚ) = 3 := by simp
  rw [hs, hl]
  refine score_round_bounds _ ?_ ?_
  · rw [le_div_iff₀ (by norm_num : (0:ℚ) < 3)]
    linarith [h1.1, h2.1, h3.1]
  · rw [div_le_iff₀ (by norm_num : (0:ℚ) < 3)]
    linarith [h1.2, h2.2, h3.2]

theorem data_risk_score_bounds (a : Answers) (d : ℚ)
    (hd : data_risk_score a = some d) : 1 ≤ d ∧ d ≤ 5 := by
  obtain ⟨m, hm⟩ : ∃ m, max_source_risk (known_sources a) = some m :=
    Option.isSome_iff_exists.mp (max_source_risk_known_isSome a)
  rw [data_risk_score, data_risk_components, hm, Option.map_some', Option.map_some'] at hd
  injection hd with hd
  subst hd
  have hmb := max_source_risk_known_bounds a m hm
  refine mean4_round_bounds _ _ _ _ (ite_52_bounds _) (ite_42_bounds _) (ite_42_bounds _) ?_
  constructor
  · exact_mod_cast hmb.1
  · have h4 : (m : ℚ) ≤ 4 := by exact_mod_cast hmb.2
    linarith

theorem model_risk_score_bounds (a : Answers) :
    1 ≤ model_risk_score a ∧ model_risk_score a ≤ 5 := by
  unfold model_risk_score model_risk_components
  exact mean4_round_bounds _ _ _ _ (ite_42_bounds _) (ite_42_bounds _)
    (pm_risk_bounds a.performance_metrics) (ite_42_bounds _)

theorem operational_risk_score_bounds (a : Answers) :
    1 ≤ operational_risk_score a ∧ operational_risk_score a ≤ 5 := by
  unfold operational_risk_score operational_risk_components
  have hc := crit_map_bounds a.criticality
  have hd := dep_map_bounds a.dependency
  refine mean3_round_bounds _ _ _ ?_ ?_ (ite_42_bounds _)
  · constructor
    · exact_mod_cast hc.1
    · have : ((crit_map a.criticality : ℕ) : ℚ) ≤ 4 := by exact_mod_cast hc.2
      linarith
  · constructor
    · exact_mod_cast hd.1
    · have : ((dep_map a.dependency : ℕ) : ℚ) ≤ 4 := by exact_mod_cast hd.2
      linarith

theorem regulatory_risk_score_bounds (a : Answers) :
    1 ≤ regulatory_risk_score a ∧ regulatory_risk_score a ≤ 5 := by
  unfold regulatory_risk_score regulatory_risk_components
  have hr := regulatory_base_risk_bounds a.regs
  refine mean3_round_bounds _ _ _ ?_ (ite_42_bounds _) (ite_42_bounds _)
  constructor
  · exact_mod_cast hr.1
  · have : ((regulatory_base_risk a.regs : ℕ) : ℚ) ≤ 4 := by exact_mod_cast hr.2
    linarith

theorem security_risk_score_bounds (a : Answers) :
    1 ≤ security_risk_score a ∧ security_risk_score a ≤ 5 := by
  unfold security_risk_score security_risk_components
  exact mean3_round_bounds _ _ _ (ite_42_bounds _) (ite_42_bounds _) (ite_42_bounds _)

/-- Claim C1: for every answer set, each of the five dimension scores and
the total weighted score lie in the interval [1, 5]. -/
theorem claim_C1_scores_and_total_bounded :
    ∀ (a : Answers) (d t : ℚ),
      data_risk_score a = some d → total_weighted a = some t →
      (1 ≤ d ∧ d ≤ 5) ∧
      (1 ≤ model_risk_score a ∧ model_risk_score a ≤ 5) ∧
      (1 ≤ operational_risk_score a ∧ operational_risk_score a ≤ 5) ∧
      (1 ≤ regulatory_risk_score a ∧ regulatory_risk_score a ≤ 5) ∧
      (1 ≤ security_risk_score a ∧ security_risk_score a ≤ 5) ∧
      (1 ≤ t ∧ t ≤ 5) := by
  intro a d t hd ht
  have hD := data_risk_score_bounds a d hd
  have hM := model_risk_score_bounds a
  have hO := operational_risk_score_bounds a
  have hR := regulatory_risk_score_bounds a
  have hS := security_risk_score_bounds a
  refine ⟨hD, hM, hO, hR, hS, ?_⟩
  rw [total_weighted, hd, Option.map_some'] at ht
  injection ht with ht
  subst ht
  simp only [show weight_of ("Data") = 0.20 from rfl, show weight_of ("Model") = 0.20 from rfl,
    show weight_of ("Operational") = 0.20 from rfl,
    show weight_of ("Regulatory") = 0.20 from rfl,
    show weight_of ("Security") = 0.20 from rfl]
  refine score_round_bounds _ ?_ ?_
  · have := hD.1
    have := hM.1
    have := hO.1
    have := hR.1
    have := hS.1
    norm_num
    linarith
  · have := hD.2
    have := hM.2
    have := hO.2
    have := hR.2
    have := hS.2
    norm_num
    linarith

/-- Concrete instantiation of claim C1 on the Scenario C answers. -/
theorem witness_C1_scores_and_total_bounded :
    (data_risk_score scenario_c_answers = some 2 ∧
     total_weighted scenario_c_answers = some 2.4) ∧
    ((1 ≤ (2:ℚ) ∧ (2:ℚ) ≤ 5) ∧
     (1 ≤ model_risk_score scenario_c_answers ∧ model_risk_score scenario_c_answers ≤ 5) ∧
     (1 ≤ operational_risk_score scenario_c_answers ∧
       operational_risk_score scenario_c_answers ≤ 5) ∧
     (1 ≤ regulatory_risk_score scenario_c_answers ∧
       regulatory_risk_score scenario_c_answers ≤ 5) ∧
     (1 ≤ security_risk_score scenario_c_answers ∧
       security_risk_score scenario_c_answers ≤ 5) ∧
     (1 ≤ (2.4:ℚ) ∧ (2.4:ℚ) ≤ 5)) := by
  have hd : data_risk_score scenario_c_answers = some 2 := by
    simp [data_risk_score, data_risk_components, known_sources, max_source_risk,
      source_mapping, list_max, scenario_c_answers]
    norm_num [pyround2, round_half_even]
  have ht : total_weighted scenario_c_answers = some 2.4 := by
    simp [total_weighted, data_risk_score, data_risk_components, known_sources,
      max_source_risk, source_mapping, list_max, scenario_c_answers, model_risk_score,
      model_risk_components, performance_metrics_risk, operational_risk_score,
      operational_risk_components, crit_map, dep_map, regulatory_risk_score,
      regulatory_risk_components, regulatory_base_risk, security_risk_score,
      security_risk_components, weight_of, weights]
    norm_num [pyround2, round_half_even]
  exact ⟨⟨hd, ht⟩, claim_C1_scores_and_total_bounded scenario_c_answers 2 2.4 hd ht⟩

end AIRiskScreening
